import Mathlib

/-!
Shallow embedding of `core/commands/root.go` (go-ipfs command-tree
composition and capability restriction).

Go pointers to package-level command variables are modelled by inductive
"pointer" types (`CmdPtr` for modern `*cmds.Command`, `OldCmdPtr` for legacy
`*oldcmds.Command`); constructor equality models Go pointer (reference)
equality: distinct package variables and fresh composite literals are
distinct allocations.  Go maps are modelled as association lists together
with, for the mutable-aliasing claims, an explicit heap of map allocations
indexed by `Nat` ids.
-/

/-- Roots of the two command trees (`Root` and `RootRO` package variables). -/
inductive RootPtr where
  | Root
  | RootRO
deriving DecidableEq, Repr

/-- Pointers to modern (`*cmds.Command`) values appearing in root.go.
`CommandsCmdOf r` is the allocation returned by the call `CommandsCmd(r)`
(the function itself lives outside this file; each call allocates a fresh
command built over the given root).  `anonBlockRO` is the fresh composite
literal registered as the restricted tree's "block" entry. -/
inductive CmdPtr where
  | AddCmd
  | BlockCmd
  | CatCmd
  | GetCmd
  | FileStoreCmd
  | blockStatCmd
  | blockGetCmd
  | CommandsCmdOf (r : RootPtr)
  | anonBlockRO
deriving DecidableEq, Repr

/-- Pointers to legacy (`*oldcmds.Command`) values appearing in root.go.
`anonNameRO`, `anonObjectRO`, `anonDagRO` are the fresh composite literals
in `rootROOldSubcommands`; `ExternalBinaryUpdate` is the allocation returned
by the call `ExternalBinary()`. -/
inductive OldCmdPtr where
  | BootstrapCmd
  | ConfigCmd
  | DagCmd
  | DhtCmd
  | DiagCmd
  | DNSCmd
  | FilesCmd
  | IDCmd
  | KeyCmd
  | LogCmd
  | LsCmd
  | MountCmd
  | NameCmd
  | ObjectCmd
  | PinCmd
  | PingCmd
  | PTPCmd
  | PubsubCmd
  | RefsCmd
  | RepoCmd
  | ResolveCmd
  | StatsCmd
  | SwarmCmd
  | TarCmd
  | tourCmd
  | UnixFSCmd
  | ExternalBinaryUpdate
  | VersionCmd
  | BitswapCmd
  | daemonShutdownCmd
  | RefsROCmd
  | IpnsCmd
  | ObjectDataCmd
  | ObjectLinksCmd
  | ObjectGetCmd
  | ObjectStatCmd
  | ObjectPatchCmd
  | DagGetCmd
  | anonNameRO
  | anonObjectRO
  | anonDagRO
deriving DecidableEq, Repr

/-- Go map lookup on the association-list model of a map literal. -/
def mapLookup {α : Type} (m : List (String × α)) (k : String) : Option α :=
  (m.find? (fun p => p.1 == k)).map (fun p => p.2)

/-- `var rootSubcommands = map[string]*cmds.Command{...}` (root.go lines 99-106). -/
def rootSubcommands : List (String × CmdPtr) :=
  [("add", .AddCmd),
   ("block", .BlockCmd),
   ("cat", .CatCmd),
   ("commands", .CommandsCmdOf .Root),
   ("get", .GetCmd),
   ("filestore", .FileStoreCmd)]

/-- `var rootOldSubcommands = map[string]*oldcmds.Command{...}` (root.go lines 108-139). -/
def rootOldSubcommands : List (String × OldCmdPtr) :=
  [("bootstrap", .BootstrapCmd),
   ("config", .ConfigCmd),
   ("dag", .DagCmd),
   ("dht", .DhtCmd),
   ("diag", .DiagCmd),
   ("dns", .DNSCmd),
   ("files", .FilesCmd),
   ("id", .IDCmd),
   ("key", .KeyCmd),
   ("log", .LogCmd),
   ("ls", .LsCmd),
   ("mount", .MountCmd),
   ("name", .NameCmd),
   ("object", .ObjectCmd),
   ("pin", .PinCmd),
   ("ping", .PingCmd),
   ("ptp", .PTPCmd),
   ("pubsub", .PubsubCmd),
   ("refs", .RefsCmd),
   ("repo", .RepoCmd),
   ("resolve", .ResolveCmd),
   ("stats", .StatsCmd),
   ("swarm", .SwarmCmd),
   ("tar", .TarCmd),
   ("tour", .tourCmd),
   ("file", .UnixFSCmd),
   ("update", .ExternalBinaryUpdate),
   ("version", .VersionCmd),
   ("bitswap", .BitswapCmd),
   ("shutdown", .daemonShutdownCmd)]

/-- Children of the anonymous "block" literal in `rootROSubcommands`. -/
def anonBlockROSubcommands : List (String × CmdPtr) :=
  [("stat", .blockStatCmd),
   ("get", .blockGetCmd)]

/-- `var rootROSubcommands = map[string]*cmds.Command{...}` (root.go lines 148-158). -/
def rootROSubcommands : List (String × CmdPtr) :=
  [("commands", .CommandsCmdOf .RootRO),
   ("cat", .CatCmd),
   ("block", .anonBlockRO),
   ("get", .GetCmd)]

/-- Children of the anonymous "name" literal in `rootROOldSubcommands`. -/
def anonNameROSubcommands : List (String × OldCmdPtr) :=
  [("resolve", .IpnsCmd)]

/-- Children of the anonymous "object" literal in `rootROOldSubcommands`. -/
def anonObjectROSubcommands : List (String × OldCmdPtr) :=
  [("data", .ObjectDataCmd),
   ("links", .ObjectLinksCmd),
   ("get", .ObjectGetCmd),
   ("stat", .ObjectStatCmd),
   ("patch", .ObjectPatchCmd)]

/-- Children of the anonymous "dag" literal in `rootROOldSubcommands`. -/
def anonDagROSubcommands : List (String × OldCmdPtr) :=
  [("get", .DagGetCmd)]

/-- `var rootROOldSubcommands = map[string]*oldcmds.Command{...}` (root.go lines 160-185). -/
def rootROOldSubcommands : List (String × OldCmdPtr) :=
  [("dns", .DNSCmd),
   ("ls", .LsCmd),
   ("name", .anonNameRO),
   ("object", .anonObjectRO),
   ("dag", .anonDagRO),
   ("refs", .RefsROCmd),
   ("resolve", .ResolveCmd),
   ("version", .VersionCmd)]

/-- A name is a top-level command of the full tree when it is a key of the
union of `rootSubcommands` and `rootOldSubcommands`. -/
def isTopLevelName (k : String) : Bool :=
  (mapLookup rootSubcommands k).isSome || (mapLookup rootOldSubcommands k).isSome

/-- The top-level command names the specification lists for the CLI surface. -/
def specCliSurfaceNames : List String :=
  ["add", "cat", "get", "ls", "refs", "block", "object", "files", "dag",
   "daemon", "mount", "resolve", "name", "key", "dns", "pin", "repo",
   "stats", "ptp", "filestore", "id", "bootstrap", "swarm", "dht", "ping",
   "diag", "config", "version", "update", "commands"]

/-- Option value types used by `cmdsutil.StringOption` / `cmdsutil.BoolOption`. -/
inductive OptKind where
  | str
  | bool
deriving DecidableEq, Repr

/-- Default value carried by an option (`.Default(...)` sets it; absent otherwise). -/
inductive OptDefault where
  | noDefault
  | boolVal (b : Bool)
  | strVal (s : String)
deriving DecidableEq, Repr

/-- A `cmdsutil.Option`: the first entry of `names` is the option's name, the
rest are its aliases. -/
structure Opt where
  names : List String
  kind : OptKind
  defaultValue : OptDefault
  description : String
deriving DecidableEq, Repr

/-- `cmdsutil.StringOption(name, desc)`. -/
def StringOption1 (name desc : String) : Opt :=
  ⟨[name], .str, .noDefault, desc⟩

/-- `cmdsutil.StringOption(name, alias, desc)`. -/
def StringOption2 (name al desc : String) : Opt :=
  ⟨[name, al], .str, .noDefault, desc⟩

/-- `cmdsutil.BoolOption(name, desc)`. -/
def BoolOption1 (name desc : String) : Opt :=
  ⟨[name], .bool, .noDefault, desc⟩

/-- `cmdsutil.BoolOption(name, alias, desc)`. -/
def BoolOption2 (name al desc : String) : Opt :=
  ⟨[name, al], .bool, .noDefault, desc⟩

/-- The `.Default(b)` method on a boolean option. -/
def Opt.Default (o : Opt) (b : Bool) : Opt :=
  { o with defaultValue := .boolVal b }

/-- `const ApiOption = "api"` (root.go line 22). -/
def ApiOption : String := "api"

/-- Help metadata of a command (`cmdsutil.HelpText`): tagline, synopsis and
the grouped subcommand-listing body. -/
structure HelpText where
  tagline : String
  synopsis : String
  subcommandsText : String
deriving DecidableEq, Repr

/-- Value of a modern command struct (`cmds.Command`): help metadata, option
set, optional handler (opaque tag), and references (heap ids) to its
`Subcommands` / `OldSubcommands` maps; `none` is Go's nil map. -/
structure NewCmdVal where
  help : HelpText
  options : List Opt
  run : Option Nat
  subId : Option Nat
  oldSubId : Option Nat
deriving Repr

/-- Value of a legacy command struct (`oldcmds.Command`). -/
structure OldCmdVal where
  help : HelpText
  run : Option Nat
  subId : Option Nat
deriving Repr

/-- The grouped subcommand-listing body of the root help text
(root.go lines 29-84). -/
def rootSubcommandsHelpBody : String :=
  "
BASIC COMMANDS
  init          Initialize ipfs local configuration
  add <path>    Add a file to IPFS
  cat <ref>     Show IPFS object data
  get <ref>     Download IPFS objects
  ls <ref>      List links from an object
  refs <ref>    List hashes of links from an object

DATA STRUCTURE COMMANDS
  block         Interact with raw blocks in the datastore
  object        Interact with raw dag nodes
  files         Interact with objects as if they were a unix filesystem
  dag           Interact with IPLD documents (experimental)

ADVANCED COMMANDS
  daemon        Start a long-running daemon process
  mount         Mount an IPFS read-only mountpoint
  resolve       Resolve any type of name
  name          Publish and resolve IPNS names
  key           Create and list IPNS name keypairs
  dns           Resolve DNS links
  pin           Pin objects to local storage
  repo          Manipulate the IPFS repository
  stats         Various operational stats
  ptp           Libp2p stream mounting
  filestore     Manage the filestore (experimental)

NETWORK COMMANDS
  id            Show info about IPFS peers
  bootstrap     Add or remove bootstrap peers
  swarm         Manage connections to the p2p network
  dht           Query the DHT for values or peers
  ping          Measure the latency of a connection
  diag          Print diagnostics

TOOL COMMANDS
  config        Manage configuration
  version       Show ipfs version information
  update        Download and apply go-ipfs updates
  commands      List all available commands

Use \x27ipfs <command> --help\x27 to learn more about each command.

ipfs uses a repository in the local file system. By default, the repo is located
at ~/.ipfs. To change the repo location, set the $IPFS_PATH environment variable:

  export IPFS_PATH=/path/to/ipfsrepo

EXIT STATUS

The CLI will exit with one of the following values:

0     Successful execution.
1     Failed executions.
"

/-- The composite literal initializing `var Root = &cmds.Command{...}`
(root.go lines 25-94): help metadata and the six global options; its
`Subcommands` / `OldSubcommands` maps are nil until `init` runs. -/
def Root : NewCmdVal :=
  { help :=
      { tagline := "Global p2p merkle-dag filesystem."
        synopsis := "ipfs [--config=<config> | -c] [--debug=<debug> | -D] [--help=<help>] [-h=<h>] [--local=<local> | -L] [--api=<api>] <command> ..."
        subcommandsText := rootSubcommandsHelpBody }
    options :=
      [StringOption2 "config" "c" "Path to the configuration file to use.",
       (BoolOption2 "debug" "D" "Operate in debug mode.").Default false,
       (BoolOption1 "help" "Show the full command help text.").Default false,
       (BoolOption1 "h" "Show a short version of the command help text.").Default false,
       (BoolOption2 "local" "L" "Run the command locally, instead of using the daemon.").Default false,
       StringOption1 ApiOption "Use a specific API instance (defaults to /ip4/127.0.0.1/tcp/5001)"]
    run := none
    subId := none
    oldSubId := none }

/-- The zero value of a modern command struct (`&cmds.Command{}`). -/
def zeroNewCmd : NewCmdVal :=
  ⟨⟨"", "", ""⟩, [], none, none, none⟩

/-- The zero value of a legacy command struct (`&oldcmds.Command{}`). -/
def zeroOldCmd : OldCmdVal :=
  ⟨⟨"", "", ""⟩, none, none⟩

/-- Package-level mutable state relevant to `init` (root.go lines 187-200):
the pointees of `Root`, `RootRO`, `RefsROCmd` and (external) `RefsCmd`, plus
heaps of map allocations for the two map types.  `newHeap`/`oldHeap` map an
allocation id to the map's contents; `nextId` is the allocator. -/
structure St where
  root : NewCmdVal
  rootRO : NewCmdVal
  refsROCmd : OldCmdVal
  refsCmd : OldCmdVal
  newHeap : Nat → List (String × CmdPtr)
  oldHeap : Nat → List (String × OldCmdPtr)
  nextId : Nat

/-- Point-update of a heap at one allocation id. -/
def updateHeap {α : Type} (h : Nat → α) (i : Nat) (v : α) : Nat → α :=
  fun j => if j = i then v else h j

/-- The state right before `init` runs: the package variables carry their
composite-literal values; the four map literals live at new-heap ids 0/1 and
old-heap ids 0/1; `RefsCmd` (defined outside this file) carries arbitrary
help `h` and handler `r`, and its `Subcommands` map lives at old-heap id 2
with arbitrary contents `l`. -/
def initialState (h : HelpText) (r : Option Nat) (l : List (String × OldCmdPtr)) : St :=
  { root := Root
    rootRO := zeroNewCmd
    refsROCmd := zeroOldCmd
    refsCmd := ⟨h, r, some 2⟩
    newHeap := fun i => if i = 0 then rootSubcommands else if i = 1 then rootROSubcommands else []
    oldHeap := fun i => if i = 0 then rootOldSubcommands else if i = 1 then rootROOldSubcommands else if i = 2 then l else []
    nextId := 3 }

/-- `func init()` (root.go lines 187-200), statement by statement.
`ph` stands for the external `ProcessHelp` method of the cmds library, which
rewrites only the receiver's help text.
1. `Root.ProcessHelp()`;
2. `*RootRO = *Root` (struct value copy);
3. `*RefsROCmd = *RefsCmd` (struct value copy);
4. `RefsROCmd.Subcommands = map[string]*oldcmds.Command{}` (fresh empty map);
5. `Root.OldSubcommands = rootOldSubcommands`;
6. `Root.Subcommands = rootSubcommands`;
7. `RootRO.OldSubcommands = rootROOldSubcommands`;
8. `RootRO.Subcommands = rootROSubcommands`. -/
def goInit (ph : HelpText → HelpText) (s : St) : St :=
  let s1 := { s with root := { s.root with help := ph s.root.help } }
  let s2 := { s1 with rootRO := s1.root }
  let s3 := { s2 with refsROCmd := s2.refsCmd }
  let fresh := s3.nextId
  let s4 := { s3 with
    oldHeap := updateHeap s3.oldHeap fresh []
    refsROCmd := { s3.refsROCmd with subId := some fresh }
    nextId := fresh + 1 }
  let s5 := { s4 with root := { s4.root with oldSubId := some 0 } }
  let s6 := { s5 with root := { s5.root with subId := some 0 } }
  let s7 := { s6 with rootRO := { s6.rootRO with oldSubId := some 1 } }
  { s7 with rootRO := { s7.rootRO with subId := some 1 } }

/-- The state after `init` has run on the initial state. -/
def postInit (ph : HelpText → HelpText) (h : HelpText) (r : Option Nat)
    (l : List (String × OldCmdPtr)) : St :=
  goInit ph (initialState h r l)

/-- Contents of a modern command's `Subcommands` map in a state (nil map
reads as empty). -/
def readNewSub (s : St) (c : NewCmdVal) : List (String × CmdPtr) :=
  match c.subId with
  | some i => s.newHeap i
  | none => []

/-- Contents of a modern command's `OldSubcommands` map in a state. -/
def readOldSubOfNew (s : St) (c : NewCmdVal) : List (String × OldCmdPtr) :=
  match c.oldSubId with
  | some i => s.oldHeap i
  | none => []

/-- Contents of a legacy command's `Subcommands` map in a state. -/
def readOldSub (s : St) (c : OldCmdVal) : List (String × OldCmdPtr) :=
  match c.subId with
  | some i => s.oldHeap i
  | none => []

/-- A test-harness mutation of a Go map: insert/overwrite a key, or delete
a key. -/
inductive MapOp (α : Type) where
  | ins (k : String) (v : α)
  | del (k : String)

/-- Go map insert on the association-list model (overwrite if present). -/
def goMapInsert {α : Type} (m : List (String × α)) (k : String) (v : α) :
    List (String × α) :=
  if (m.find? (fun p => p.1 == k)).isSome then
    m.map (fun p => if p.1 == k then (k, v) else p)
  else
    m ++ [(k, v)]

/-- Apply a harness mutation to a map's contents. -/
def applyMapOp {α : Type} (op : MapOp α) (m : List (String × α)) :
    List (String × α) :=
  match op with
  | .ins k v => goMapInsert m k v
  | .del k => m.filter (fun p => !(p.1 == k))

/-- Apply a harness mutation to the `Subcommands` map of a modern command
(no-op on a nil map, as in Go a write to a nil map is excluded from the
harness). -/
def mutateNewSub (s : St) (c : NewCmdVal) (op : MapOp CmdPtr) : St :=
  match c.subId with
  | some i => { s with newHeap := updateHeap s.newHeap i (applyMapOp op (s.newHeap i)) }
  | none => s

/-- Apply a harness mutation to the `OldSubcommands` map of a modern command. -/
def mutateOldSubOfNew (s : St) (c : NewCmdVal) (op : MapOp OldCmdPtr) : St :=
  match c.oldSubId with
  | some i => { s with oldHeap := updateHeap s.oldHeap i (applyMapOp op (s.oldHeap i)) }
  | none => s

/-- A concrete payload value carried by a response: either the
`MessageOutput` struct of root.go (lines 202-204), or a value of any other
concrete shape, identified by the name reflection reports for its type. -/
inductive Payload where
  | messageOutput (Message : String)
  | otherShape (typeName : String)
deriving DecidableEq, Repr

/-- An `oldcmds.Response` as this file uses it: an opaque wrapper whose
`Output()` yields the payload. -/
structure Response where
  output : Payload
deriving DecidableEq, Repr

/-- Errors a text marshaler can return. -/
inductive MarshalError where
  | typeErr (expected actual : String)
deriving DecidableEq, Repr

/-- The type name reflection reports for a payload's concrete shape. -/
def shapeName : Payload → String
  | .messageOutput _ => "*commands.MessageOutput"
  | .otherShape n => n

/-- Modelled from the spec: `e.TypeErr` (package `core/commands/e`, not in
this file) builds the PayloadShapeMismatch condition "that names both the
expected and the actual shape". -/
def TypeErr (expected : String) (actual : Payload) : MarshalError :=
  .typeErr expected (shapeName actual)

/-- Modelled from the spec: `unwrapOutput` (defined elsewhere in package
`core/commands`) is the generic `Unwrap(response) -> (value, error)` that
"extracts the underlying payload from the opaque response wrapper". -/
def unwrapOutput (v : Payload) : Except MarshalError Payload :=
  .ok v

/-- `func MessageTextMarshaler(res oldcmds.Response) (io.Reader, error)`
(root.go lines 206-218).  The returned `io.Reader` is modelled by the string
it reads out (`strings.NewReader(out.Message)` reads exactly `out.Message`). -/
def MessageTextMarshaler (res : Response) : Except MarshalError String :=
  match unwrapOutput res.output with
  | .error e => .error e
  | .ok v =>
    match v with
    | .messageOutput m => .ok m
    | _ => .error (TypeErr "*commands.MessageOutput" v)

/-- Modelled from the spec: `CommandsCmd(root)` ("commands — List all
available commands", built once per root) returns a fresh command over the
given root. -/
def CommandsCmd (r : RootPtr) : CmdPtr :=
  .CommandsCmdOf r

/-- `var CommandsDaemonCmd = CommandsCmd(Root)` (root.go line 97). -/
def CommandsDaemonCmd : CmdPtr :=
  CommandsCmd .Root

/-- `var CommandsDaemonROCmd = CommandsCmd(RootRO)` (root.go line 144). -/
def CommandsDaemonROCmd : CmdPtr :=
  CommandsCmd .RootRO

/-- The top-level subcommand map registered on a root by `init`. -/
def rootSubMapOf : RootPtr → List (String × CmdPtr)
  | .Root => rootSubcommands
  | .RootRO => rootROSubcommands

/-- The top-level legacy subcommand map registered on a root by `init`. -/
def rootOldSubMapOf : RootPtr → List (String × OldCmdPtr)
  | .Root => rootOldSubcommands
  | .RootRO => rootROOldSubcommands

/-- Modelled from the spec: the listing the `commands` command of a root
produces — the names of all commands reachable from that root's two
top-level maps. -/
def commandsListing (r : RootPtr) : List String :=
  (rootSubMapOf r).map (fun p => p.1) ++ (rootOldSubMapOf r).map (fun p => p.1)

/-- The root a `CommandsCmd(...)` allocation was built over. -/
def listingRootOf : CmdPtr → Option RootPtr
  | .CommandsCmdOf r => some r
  | _ => none

/-- A successful map lookup can only hit a key of the map. -/
theorem mapLookup_some_mem_keys {α : Type} {m : List (String × α)} {k : String} {c : α}
    (h : mapLookup m k = some c) : k ∈ m.map Prod.fst := by
  unfold mapLookup at h
  cases hf : m.find? (fun q => q.1 == k) with
  | none => rw [hf] at h; simp at h
  | some q =>
    have hp := List.find?_some hf
    have hmem : q ∈ m := List.mem_of_find?_eq_some hf
    have hk : q.1 = k := by simpa using hp
    exact hk ▸ List.mem_map_of_mem Prod.fst hmem

/-- Claim C1 as stated is false: the restricted tree's "block" entry is the
fresh composite literal, not the full tree's `BlockCmd`, so the two leaves
at the top-level name "block" are not reference-equal. -/
theorem c1_counterexample :
    ¬ (∀ (k : String) (c : CmdPtr), mapLookup rootROSubcommands k = some c →
        mapLookup rootSubcommands k = some c) := by
  intro hall
  have h := hall "block" CmdPtr.anonBlockRO rfl
  exact absurd h (by decide)

/-- Claim C1 (amended): every top-level name reachable in the restricted
tree's maps is a key of the corresponding full-tree map; the entries for
cat and get (modern) and dns, ls, resolve, version (legacy) are
reference-equal to the full tree's; the entries for commands and block
(modern) and name, object, dag, refs (legacy) are distinct, purpose-built
restricted values. -/
theorem c1_restricted_subset_amended :
    (∀ (k : String) (c : CmdPtr), mapLookup rootROSubcommands k = some c →
        (mapLookup rootSubcommands k).isSome = true) ∧
    (∀ (k : String) (c : OldCmdPtr), mapLookup rootROOldSubcommands k = some c →
        (mapLookup rootOldSubcommands k).isSome = true) ∧
    (mapLookup rootROSubcommands "cat" = some CmdPtr.CatCmd ∧
     mapLookup rootSubcommands "cat" = some CmdPtr.CatCmd ∧
     mapLookup rootROSubcommands "get" = some CmdPtr.GetCmd ∧
     mapLookup rootSubcommands "get" = some CmdPtr.GetCmd ∧
     mapLookup rootROOldSubcommands "dns" = mapLookup rootOldSubcommands "dns" ∧
     mapLookup rootROOldSubcommands "ls" = mapLookup rootOldSubcommands "ls" ∧
     mapLookup rootROOldSubcommands "resolve" = mapLookup rootOldSubcommands "resolve" ∧
     mapLookup rootROOldSubcommands "version" = mapLookup rootOldSubcommands "version" ∧
     mapLookup rootROSubcommands "commands" ≠ mapLookup rootSubcommands "commands" ∧
     mapLookup rootROSubcommands "block" ≠ mapLookup rootSubcommands "block" ∧
     mapLookup rootROOldSubcommands "name" ≠ mapLookup rootOldSubcommands "name" ∧
     mapLookup rootROOldSubcommands "object" ≠ mapLookup rootOldSubcommands "object" ∧
     mapLookup rootROOldSubcommands "dag" ≠ mapLookup rootOldSubcommands "dag" ∧
     mapLookup rootROOldSubcommands "refs" ≠ mapLookup rootOldSubcommands "refs") := by
  refine ⟨?_, ?_, by decide⟩
  · intro k c h
    have hk := mapLookup_some_mem_keys h
    simp [rootROSubcommands] at hk
    rcases hk with rfl | rfl | rfl | rfl <;> decide
  · intro k c h
    have hk := mapLookup_some_mem_keys h
    simp [rootROOldSubcommands] at hk
    rcases hk with rfl | rfl | rfl | rfl | rfl | rfl | rfl | rfl <;> decide

/-- Witness for the amended claim C1 at the concrete name "cat". -/
theorem c1_restricted_subset_amended_witness :
    (mapLookup rootSubcommands "cat").isSome = true :=
  c1_restricted_subset_amended.1 "cat" CmdPtr.CatCmd rfl

/-- Claim C2: `MessageTextMarshaler` on a response whose unwrapped payload
is a `MessageOutput` with Message "pong" yields exactly "pong" with no
error; on a payload of any other concrete shape it yields a
PayloadShapeMismatch error naming the expected shape (*MessageOutput) and
the actual shape, and never an empty string as a silent default. -/
theorem c2_message_text_marshaler (s : String) :
    MessageTextMarshaler ⟨Payload.messageOutput "pong"⟩ = Except.ok "pong" ∧
    MessageTextMarshaler ⟨Payload.otherShape s⟩ =
      Except.error (MarshalError.typeErr "*commands.MessageOutput" s) ∧
    MessageTextMarshaler ⟨Payload.otherShape s⟩ ≠ Except.ok "" :=
  ⟨rfl, rfl, fun h => Except.noConfusion h⟩

/-- Witness for claim C2 at the concrete foreign shape "*commands.AddOutput". -/
theorem c2_message_text_marshaler_witness :
    MessageTextMarshaler ⟨Payload.otherShape "*commands.AddOutput"⟩ =
      Except.error (MarshalError.typeErr "*commands.MessageOutput" "*commands.AddOutput") :=
  (c2_message_text_marshaler "*commands.AddOutput").2.1

/-- Claim C5 as stated is false: no option of the root command both bears
the name "api" and carries the endpoint address as an explicit default
value — the address appears only in the option's description. -/
theorem c5_counterexample :
    ¬ ∃ o, o ∈ Root.options ∧ "api" ∈ o.names ∧
      o.defaultValue = OptDefault.strVal "/ip4/127.0.0.1/tcp/5001" := by decide

/-- Claim C5 (amended): the root command carries exactly six global
options — config (string, alias c), debug (boolean, alias D, default
false), help (boolean, default false), h (boolean, default false), local
(boolean, alias L, default false), and api (string), which carries no
explicit default value; its description documents the well-known local API
endpoint /ip4/127.0.0.1/tcp/5001 as the ambient default. -/
theorem c5_global_options_amended :
    Root.options.length = 6 ∧
    Root.options.map Opt.names =
      [["config", "c"], ["debug", "D"], ["help"], ["h"], ["local", "L"], ["api"]] ∧
    Root.options.map Opt.kind =
      [OptKind.str, OptKind.bool, OptKind.bool, OptKind.bool, OptKind.bool, OptKind.str] ∧
    Root.options.map Opt.defaultValue =
      [OptDefault.noDefault, OptDefault.boolVal false, OptDefault.boolVal false,
       OptDefault.boolVal false, OptDefault.boolVal false, OptDefault.noDefault] ∧
    (∃ o, o ∈ Root.options ∧ "api" ∈ o.names ∧
      o.description = "Use a specific API instance (defaults to /ip4/127.0.0.1/tcp/5001)") := by
  decide

/-- Claim C6 as stated is false: "daemon" is among the names the spec lists
for the CLI surface, yet it is not a key of either of the full root's two
subcommand maps. -/
theorem c6_counterexample :
    "daemon" ∈ specCliSurfaceNames ∧ isTopLevelName "daemon" = false := by decide

/-- Claim C6 (amended): every top-level command name the spec lists for the
CLI surface except "daemon" is a key of the union of `rootSubcommands` and
`rootOldSubcommands`; "daemon" is a key of neither map. -/
theorem c6_cli_surface_amended :
    (∀ k, k ∈ specCliSurfaceNames → k ≠ "daemon" → isTopLevelName k = true) ∧
    isTopLevelName "daemon" = false := by decide

/-- Witness for the amended claim C6 at the concrete name "add". -/
theorem c6_cli_surface_amended_witness : isTopLevelName "add" = true :=
  c6_cli_surface_amended.1 "add" (by decide) (by decide)

/-- Claim C7: within any one parent, child names are unique — no name is a
key of both of the full root's maps, nor of both of the restricted root's
maps. -/
theorem c7_child_names_unique :
    (∀ p, p ∈ rootSubcommands → mapLookup rootOldSubcommands p.1 = none) ∧
    (∀ p, p ∈ rootOldSubcommands → mapLookup rootSubcommands p.1 = none) ∧
    (∀ p, p ∈ rootROSubcommands → mapLookup rootROOldSubcommands p.1 = none) ∧
    (∀ p, p ∈ rootROOldSubcommands → mapLookup rootROSubcommands p.1 = none) := by
  decide

/-- Witness for claim C7 at the concrete entry ("add", AddCmd). -/
theorem c7_child_names_unique_witness :
    mapLookup rootOldSubcommands "add" = none :=
  c7_child_names_unique.1 ("add", CmdPtr.AddCmd) (by decide)

/-- Claim C8: the full tree registers both a top-level "files" command (the
files namespace) and a separate top-level "file" command (the UnixFS
command group), as independent registrations mapping to distinct command
values. -/
theorem c8_files_and_file_distinct :
    mapLookup rootOldSubcommands "files" = some OldCmdPtr.FilesCmd ∧
    mapLookup rootOldSubcommands "file" = some OldCmdPtr.UnixFSCmd ∧
    OldCmdPtr.FilesCmd ≠ OldCmdPtr.UnixFSCmd := by decide

/-- Claim C9: the restricted tree's "commands" child is `CommandsCmd(RootRO)`,
a distinct allocation from the full tree's `CommandsCmd(Root)` child, and
the listing it produces is computed from the restricted tree's maps, which
differ from the full tree's. -/
theorem c9_ro_commands_child :
    mapLookup rootROSubcommands "commands" = some CommandsDaemonROCmd ∧
    CommandsDaemonROCmd = CommandsCmd RootPtr.RootRO ∧
    mapLookup rootSubcommands "commands" = some CommandsDaemonCmd ∧
    CommandsDaemonROCmd ≠ CommandsDaemonCmd ∧
    listingRootOf CommandsDaemonROCmd = some RootPtr.RootRO ∧
    commandsListing RootPtr.RootRO =
      ["commands", "cat", "block", "get",
       "dns", "ls", "name", "object", "dag", "refs", "resolve", "version"] ∧
    commandsListing RootPtr.RootRO ≠ commandsListing RootPtr.Root := by decide

/-- Claim C3: after `init`, the restricted root's children maps and the full
root's children maps are independent allocations — the two roots' map ids
differ, and a harness mutation (insert or delete) applied through one
root's map leaves the other root's map contents unchanged, in both
directions and for both map types. -/
theorem c3_children_maps_independent (ph : HelpText → HelpText) (h : HelpText)
    (r : Option Nat) (l : List (String × OldCmdPtr))
    (opN : MapOp CmdPtr) (opO : MapOp OldCmdPtr) :
    (postInit ph h r l).root.subId ≠ (postInit ph h r l).rootRO.subId ∧
    (postInit ph h r l).root.oldSubId ≠ (postInit ph h r l).rootRO.oldSubId ∧
    readNewSub (mutateNewSub (postInit ph h r l) (postInit ph h r l).root opN)
        (postInit ph h r l).rootRO =
      readNewSub (postInit ph h r l) (postInit ph h r l).rootRO ∧
    readNewSub (mutateNewSub (postInit ph h r l) (postInit ph h r l).rootRO opN)
        (postInit ph h r l).root =
      readNewSub (postInit ph h r l) (postInit ph h r l).root ∧
    readOldSubOfNew (mutateOldSubOfNew (postInit ph h r l) (postInit ph h r l).root opO)
        (postInit ph h r l).rootRO =
      readOldSubOfNew (postInit ph h r l) (postInit ph h r l).rootRO ∧
    readOldSubOfNew (mutateOldSubOfNew (postInit ph h r l) (postInit ph h r l).rootRO opO)
        (postInit ph h r l).root =
      readOldSubOfNew (postInit ph h r l) (postInit ph h r l).root :=
  ⟨by simp [postInit, goInit, initialState], by simp [postInit, goInit, initialState],
   rfl, rfl, rfl, rfl⟩

/-- Witness for claim C3: inserting a key through the full root's modern map
leaves the restricted root's modern map unchanged, at concrete inputs. -/
theorem c3_children_maps_independent_witness :
    readNewSub
        (mutateNewSub (postInit id ⟨"", "", ""⟩ none [])
          (postInit id ⟨"", "", ""⟩ none []).root (MapOp.ins "x" CmdPtr.AddCmd))
        (postInit id ⟨"", "", ""⟩ none []).rootRO =
      readNewSub (postInit id ⟨"", "", ""⟩ none [])
        (postInit id ⟨"", "", ""⟩ none []).rootRO :=
  (c3_children_maps_independent id ⟨"", "", ""⟩ none []
    (MapOp.ins "x" CmdPtr.AddCmd) (MapOp.del "x")).2.2.1

/-- Claim C4: after `init`, the pruned refs node `RefsROCmd` (registered
under "refs" in the restricted tree) has an empty children map, while its
help metadata and handler equal those of the full tree's `RefsCmd` (itself
registered under "refs" in the full tree). -/
theorem c4_refs_pruned (ph : HelpText → HelpText) (h : HelpText)
    (r : Option Nat) (l : List (String × OldCmdPtr)) :
    readOldSub (postInit ph h r l) (postInit ph h r l).refsROCmd = [] ∧
    (postInit ph h r l).refsROCmd.help = (postInit ph h r l).refsCmd.help ∧
    (postInit ph h r l).refsROCmd.run = (postInit ph h r l).refsCmd.run ∧
    mapLookup rootROOldSubcommands "refs" = some OldCmdPtr.RefsROCmd ∧
    mapLookup rootOldSubcommands "refs" = some OldCmdPtr.RefsCmd :=
  ⟨rfl, rfl, rfl, rfl, rfl⟩

/-- Witness for claim C4 at concrete `RefsCmd` contents. -/
theorem c4_refs_pruned_witness :
    readOldSub (postInit id ⟨"t", "s", "b"⟩ (some 7) [("local", OldCmdPtr.RefsCmd)])
        (postInit id ⟨"t", "s", "b"⟩ (some 7) [("local", OldCmdPtr.RefsCmd)]).refsROCmd = [] :=
  (c4_refs_pruned id ⟨"t", "s", "b"⟩ (some 7) [("local", OldCmdPtr.RefsCmd)]).1

/-- Claim C10: `init` leaves the full tree's `RefsCmd` completely
unchanged — its struct value (help, handler, `Subcommands` map reference)
equals the pre-init value, the map it references still holds its original
contents, and `RefsROCmd` references a different, fresh map. -/
theorem c10_refscmd_unchanged (ph : HelpText → HelpText) (h : HelpText)
    (r : Option Nat) (l : List (String × OldCmdPtr)) :
    (postInit ph h r l).refsCmd = (initialState h r l).refsCmd ∧
    (postInit ph h r l).refsCmd.subId = (initialState h r l).refsCmd.subId ∧
    readOldSub (postInit ph h r l) (postInit ph h r l).refsCmd = l ∧
    (postInit ph h r l).refsROCmd.subId ≠ (postInit ph h r l).refsCmd.subId :=
  ⟨rfl, rfl, rfl, by simp [postInit, goInit, initialState]⟩

/-- Witness for claim C10 at concrete `RefsCmd` contents. -/
theorem c10_refscmd_unchanged_witness :
    readOldSub (postInit id ⟨"t", "s", "b"⟩ (some 7) [("local", OldCmdPtr.RefsCmd)])
        (postInit id ⟨"t", "s", "b"⟩ (some 7) [("local", OldCmdPtr.RefsCmd)]).refsCmd =
      [("local", OldCmdPtr.RefsCmd)] :=
  (c10_refscmd_unchanged id ⟨"t", "s", "b"⟩ (some 7) [("local", OldCmdPtr.RefsCmd)]).2.2.1
